import Mathlib

/-
Shallow embedding of the OptiTraffic simulation core
(src/simulation/world.py, src/simulation/traffic_light.py,
src/simulation/vehicle.py, src/simulation/traffic_light_controller/*).

Conventions of the embedding:
- Python floats (positions, directions, times, durations) are modelled as
  rationals.  The source only ever compares Euclidean norms against the
  constants 40 and 13; those comparisons are translated as comparisons of
  squared norms against 1600 and 169, which is exact for non-negative
  operands, so no square root is needed.
- In-place mutation becomes explicit state passing: methods that mutate an
  object return the updated value.
- A Python exception (raise ValueError) becomes the error case of Except.
- Python object identity (the `is` test and `in` membership on vehicle
  lists) is modelled by list indices where the distinction matters (the
  self-skip in the car-following loop) and by structural equality for
  approach-list membership, which agrees with identity whenever the list
  elements are pairwise distinct values.
-/

namespace OptiTraffic

/-- LightState enum of traffic_light.py (declaration order RED, GREEN,
YELLOW, which is the order seen by list(LightState) indexing). -/
inductive LightState where
  | RED
  | GREEN
  | YELLOW
deriving DecidableEq, Repr

/-- Cardinal direction labels N, S, E, W used as keys of the approaching
dictionary of TrafficLight. -/
inductive Dir where
  | N
  | S
  | E
  | W
deriving DecidableEq, Repr

/-- Vehicle of vehicle.py: position, direction, moving flag, cached
distance to the approached light (large sentinel 300 at construction),
wait-time bookkeeping fields. -/
structure Vehicle where
  position : ℚ × ℚ
  direction : ℚ × ℚ
  moving : Bool := true
  distance_to_light : ℚ := 300
  wait_time : ℚ := 0
  stop_start_time : Option ℚ := none
deriving DecidableEq, Repr

/-- Squared Euclidean norm of a planar vector; the embedding compares
squared norms where the source compares numpy norms with constants. -/
def norm2 (p : ℚ × ℚ) : ℚ := p.1 * p.1 + p.2 * p.2

/-- Difference of planar points. -/
def psub (p q : ℚ × ℚ) : ℚ × ℚ := (p.1 - q.1, p.2 - q.2)

/-- Dot product of planar vectors, as used by np.dot in world.py. -/
def pdot (p q : ℚ × ℚ) : ℚ := p.1 * q.1 + p.2 * q.2

/-- Vehicle.update of vehicle.py: set the moving flag from the speed and
advance the position by direction times speed times dt. -/
def Vehicle.update (v : Vehicle) (speed dt : ℚ) : Vehicle :=
  { v with
    moving := decide (0 < speed)
    position := (v.position.1 + v.direction.1 * speed * dt,
                 v.position.2 + v.direction.2 * speed * dt) }

/-- Vehicle.update_light_distance of vehicle.py.  The source stores the
Euclidean norm; the embedding stores its square (the stored value is never
compared against a constant anywhere in the verified code paths). -/
def Vehicle.update_light_distance (v : Vehicle) (d2 : ℚ) : Vehicle :=
  { v with distance_to_light := d2 }

/-- TrafficLight of traffic_light.py: position, id, display state
(initially RED) and the four per-direction approach lists. -/
structure TrafficLight where
  position : ℚ × ℚ
  light_id : String
  state : LightState := .RED
  approachN : List Vehicle := []
  approachS : List Vehicle := []
  approachE : List Vehicle := []
  approachW : List Vehicle := []
deriving DecidableEq, Repr

/-- Accessor for the approaching dictionary of TrafficLight. -/
def TrafficLight.approaching (l : TrafficLight) : Dir → List Vehicle
  | .N => l.approachN
  | .S => l.approachS
  | .E => l.approachE
  | .W => l.approachW

/-- TrafficLight.update: set the display state. -/
def TrafficLight.update (l : TrafficLight) (s : LightState) : TrafficLight :=
  { l with state := s }

/-- TrafficLight.clear_approaching_vehicles: empty all four lists. -/
def TrafficLight.clear_approaching_vehicles (l : TrafficLight) : TrafficLight :=
  { l with approachN := [], approachS := [], approachE := [], approachW := [] }

/-- Helper describing the single-list append performed by
TrafficLight.add_approaching_vehicle once the direction key is resolved. -/
def TrafficLight.appendApproaching (l : TrafficLight) (d : Dir) (v : Vehicle) :
    TrafficLight :=
  match d with
  | .N => { l with approachN := l.approachN ++ [v] }
  | .S => { l with approachS := l.approachS ++ [v] }
  | .E => { l with approachE := l.approachE ++ [v] }
  | .W => { l with approachW := l.approachW ++ [v] }

/-- Truncation toward zero, the behaviour of the Python int() conversion
applied to each component of the direction vector in
add_approaching_vehicle. -/
def ratTrunc (q : ℚ) : ℤ := if 0 ≤ q then ⌊q⌋ else ⌈q⌉

/-- The dir_map dictionary of add_approaching_vehicle, keyed by the
integer-truncated direction tuple. -/
def dirMap (key : ℤ × ℤ) : Option Dir :=
  if key = (0, 1) then some .N
  else if key = (0, -1) then some .S
  else if key = (1, 0) then some .E
  else if key = (-1, 0) then some .W
  else none

/-- TrafficLight.add_approaching_vehicle: resolve the truncated direction
tuple through dir_map and append to that single direction list; raise
ValueError (here: Except.error) when the key is unknown.  The source
message interpolates the numpy array repr of the direction, which the
embedding does not reproduce. -/
def TrafficLight.add_approaching_vehicle (l : TrafficLight) (v : Vehicle) :
    Except String TrafficLight :=
  match dirMap (ratTrunc v.direction.1, ratTrunc v.direction.2) with
  | some d => .ok (l.appendApproaching d v)
  | none => .error ("Invalid vehicle direction")

/-- TrafficLight.get_approaching_vehicles: flat concatenation of the four
lists in dictionary insertion order N, S, E, W. -/
def TrafficLight.get_approaching_vehicles (l : TrafficLight) : List Vehicle :=
  l.approachN ++ l.approachS ++ l.approachE ++ l.approachW

/-- FixedCycleTrafficLightController state of fixed_controller.py:
current state, previous state, elapsed time in the current state and the
three configured durations. -/
structure FixedCycleTrafficLightController where
  state : LightState
  previous_state : LightState
  time_in_state : ℚ
  green_duration : ℚ
  yellow_duration : ℚ
  red_duration : ℚ
deriving DecidableEq, Repr

namespace FixedCycleTrafficLightController

/-- Initial controller state of the constructor: GREEN, previous RED,
time 0, with the configured durations. -/
def init (g y r : ℚ) : FixedCycleTrafficLightController :=
  { state := .GREEN, previous_state := .RED, time_in_state := 0,
    green_duration := g, yellow_duration := y, red_duration := r }

/-- switch_state: record the old state as previous, install the new state
and reset the timer. -/
def switch_state (c : FixedCycleTrafficLightController) (new : LightState) :
    FixedCycleTrafficLightController :=
  { c with previous_state := c.state, state := new, time_in_state := 0 }

/-- handle_state_transition: the if/elif chain of fixed_controller.py,
firing at most one transition. -/
def handle_state_transition (c : FixedCycleTrafficLightController) :
    FixedCycleTrafficLightController :=
  if c.state = .GREEN ∧ c.green_duration ≤ c.time_in_state then
    c.switch_state .YELLOW
  else if c.state = .YELLOW ∧ c.yellow_duration ≤ c.time_in_state then
    c.switch_state (if c.previous_state = .GREEN then .RED else .GREEN)
  else if c.state = .RED ∧ c.red_duration ≤ c.time_in_state then
    c.switch_state .YELLOW
  else c

/-- update(dt) restricted to the controller state: advance the timer and
handle the transition (the push of the state to the lights is modelled
separately where the World pipeline needs it). -/
def update (c : FixedCycleTrafficLightController) (dt : ℚ) :
    FixedCycleTrafficLightController :=
  handle_state_transition { c with time_in_state := c.time_in_state + dt }

/-- Proof helper summarizing the case structure of
handle_state_transition: the configured duration guarding the current
state. -/
def fcDuration (c : FixedCycleTrafficLightController) : ℚ :=
  match c.state with
  | .GREEN => c.green_duration
  | .YELLOW => c.yellow_duration
  | .RED => c.red_duration

/-- Proof helper summarizing the case structure of
handle_state_transition: the state entered when the guard of the current
state fires. -/
def fcNextState (c : FixedCycleTrafficLightController) : LightState :=
  match c.state with
  | .GREEN => .YELLOW
  | .YELLOW => if c.previous_state = .GREEN then .RED else .GREEN
  | .RED => .YELLOW

end FixedCycleTrafficLightController

namespace MARLTrafficLightController

/-- Minimum dwell time min_dur of marl_controller.py. -/
def min_dur : ℚ := 1

/-- Maximum dwell time max_dur of marl_controller.py. -/
def max_dur : ℚ := 10

/-- Descending order on actions induced by a Q-value vector, the order
used by torch.argsort with descending=True. -/
def qge (q : Fin 3 → ℚ) (a b : Fin 3) : Prop := q b ≤ q a

instance (q : Fin 3 → ℚ) : DecidableRel (qge q) := fun a b =>
  inferInstanceAs (Decidable (q b ≤ q a))

/-- Model of torch.argsort(q, descending=True): the three actions sorted
by non-increasing Q-value (argsort tie-breaking is implementation
defined; insertion sort fixes one admissible order). -/
def argsortDesc (q : Fin 3 → ℚ) : List (Fin 3) :=
  List.insertionSort (qge q) [0, 1, 2]

instance (q : Fin 3 → ℚ) : IsTotal (Fin 3) (qge q) :=
  ⟨fun a b => le_total (q b) (q a)⟩

instance (q : Fin 3 → ℚ) : IsTrans (Fin 3) (qge q) :=
  ⟨fun _ _ _ h1 h2 => le_trans h2 h1⟩

/-- force_action_change: first action of the descending argsort that
differs from the previous action (the Python next(...) raises when no
such action exists, hence the Option). -/
def force_action_change (q : Fin 3 → ℚ) (prev : Fin 3) : Option (Fin 3) :=
  (argsortDesc q).find? (fun a => a ≠ prev)

/-- select_traffic_light_action for one agent: given the proposed
epsilon-greedy action, the previous action, the already dt-incremented
time_in_state and the Q-values of the live network, apply the dwell
constraint override.  (In update, time_in_state[idx] += dt runs before
this selection, so the time argument is the post-increment value.) -/
def select_traffic_light_action (proposed prev : Fin 3) (time_in_state : ℚ)
    (q : Fin 3 → ℚ) : Option (Fin 3) :=
  if time_in_state < min_dur then some prev
  else if max_dur ≤ time_in_state then force_action_change q prev
  else some proposed

/-- The list(LightState)[action] indexing of update: enum declaration
order RED, GREEN, YELLOW. -/
def listLightState : Fin 3 → LightState
  | 0 => .RED
  | 1 => .GREEN
  | 2 => .YELLOW

/-- Feature block of _build_global_state and _compute_spatial_features for
one light: 4 approach counts, 4 average cached distances, 4 average
moving fractions, 8 average positional offsets, in N, S, E, W order. -/
def buildLightFeatures (light : TrafficLight) : List ℚ :=
  let dirs : List Dir := [.N, .S, .E, .W]
  let counts := dirs.map (fun d => ((light.approaching d).length : ℚ))
  let dists := dirs.map (fun d =>
    (((light.approaching d).map Vehicle.distance_to_light).sum) /
      ((max 1 (light.approaching d).length : ℕ) : ℚ))
  let moving := dirs.map (fun d =>
    ((((light.approaching d).filter (fun v => v.moving)).length : ℚ)) /
      ((max 1 (light.approaching d).length : ℕ) : ℚ))
  let spatial := dirs.flatMap (fun d =>
    let dir_list := light.approaching d
    let avg_dx := if dir_list = [] then 0 else
      ((dir_list.map (fun v => v.position.1 - light.position.1)).sum) /
        (dir_list.length : ℚ)
    let avg_dy := if dir_list = [] then 0 else
      ((dir_list.map (fun v => v.position.2 - light.position.2)).sum) /
        (dir_list.length : ℚ)
    [avg_dx, avg_dy])
  counts ++ dists ++ moving ++ spatial

/-- Model of _build_global_state: concatenation of the per-light feature
blocks over all lights. -/
def build_global_state (lights : List TrafficLight) : List ℚ :=
  lights.flatMap buildLightFeatures

/-- The joint application of the selected actions in update: each light
paired with an action receives the corresponding display state; lights
beyond the action list (never the case in the source, where both lists
have the agent count as length) are untouched. -/
def applyActions (lights : List TrafficLight) (actions : List (Fin 3)) :
    List TrafficLight :=
  (List.zipWith (fun l a => l.update (listLightState a)) lights actions) ++
    lights.drop actions.length

/-- Membership of a direction label in the axis groups used by
_calculate_reward. -/
def isEW : Dir → Bool
  | .E => true
  | .W => true
  | _ => false

/-- _calculate_reward: moved count minus queue and stopped penalties. -/
def calculate_reward (light : TrafficLight) (new_state_enum : LightState) : ℚ :=
  let dirs : List Dir := [.N, .S, .E, .W]
  let moved : ℚ := ((dirs.flatMap (fun d =>
    (light.approaching d).filter (fun v =>
      ((new_state_enum = .GREEN ∧ isEW d = true) ∨
       (new_state_enum = .RED ∧ isEW d = false) : Prop) ∧ v.moving))).length : ℚ)
  let queue_penalty : ℚ := (1 / 10) *
    ((dirs.map (fun d => (light.approaching d).length)).sum : ℚ)
  let stopped_count : ℚ := ((dirs.flatMap (fun d =>
    (light.approaching d).filter (fun v => !v.moving))).length : ℚ)
  moved - queue_penalty - (1 / 5) * stopped_count

/-- Transition namedtuple stored in the replay buffer. -/
structure Transition where
  state : List ℚ
  action : Fin 3
  reward : ℚ
  next_state : List ℚ
  done : Bool
deriving DecidableEq, Repr

/-- The transitions stored by one call of update, following its data
flow: the pre-action global state is built once, all actions are applied
simultaneously, the post-action global state is built, and one transition
per (light, action) pair is stored with done = false. -/
def storedTransitions (lights : List TrafficLight) (actions : List (Fin 3)) :
    List Transition :=
  let current_global_state := build_global_state lights
  let lights2 := applyActions lights actions
  let next_global_state := build_global_state lights2
  (List.zipWith (fun l a =>
      { state := current_global_state
        action := a
        reward := calculate_reward l (listLightState a)
        next_state := next_global_state
        done := false }) lights2 actions)

end MARLTrafficLightController

/-- Closed enumeration of the controller strategies selectable by
TrafficLightController._select_strategy. -/
inductive StrategyKind where
  | fixed
  | marl
deriving DecidableEq, Repr

/-- Lower-casing of the configured string, the Python str.lower call: a
character-wise map (a structurally recursive restatement of
String.toLower, which extensionally equals it but also evaluates under
kernel reduction). -/
def toLowerStr (s : String) : String := String.mk (s.data.map Char.toLower)

/-- TrafficLightController._select_strategy of
traffic_light_controller.py: lower-case the configured controllerType
string, pick the matching strategy, otherwise raise ValueError naming the
unknown (lowered) type. -/
def select_strategy (controllerType : String) : Except String StrategyKind :=
  let controller_type := toLowerStr controllerType
  if controller_type = "fixed" then .ok .fixed
  else if controller_type = "marl" then .ok .marl
  else .error ("Unknown traffic light controller type: \x27" ++
    controller_type ++ "\x27")

namespace World

/-- World._check_east_bound_traffic: the if-chain over the light index,
with position bands over the fixed road geometry (Python-private leading
underscores are dropped throughout). -/
def check_east_bound_traffic (index : ℕ) (v : Vehicle) : Bool :=
  let x := v.position.1
  let y := v.position.2
  match index with
  | 0 => decide (y = 280 ∧ 0 ≤ x ∧ x ≤ 300)
  | 1 => decide (y = 280 ∧ 300 ≤ x ∧ x ≤ 600)
  | 2 => decide (y = 580 ∧ 0 ≤ x ∧ x ≤ 300)
  | 3 => decide (y = 580 ∧ 300 ≤ x ∧ x ≤ 600)
  | _ => false

/-- World._check_west_bound_traffic. -/
def check_west_bound_traffic (index : ℕ) (v : Vehicle) : Bool :=
  let x := v.position.1
  let y := v.position.2
  match index with
  | 0 => decide (y = 320 ∧ 300 ≤ x ∧ x ≤ 600)
  | 1 => decide (y = 320 ∧ 600 ≤ x ∧ x ≤ 900)
  | 2 => decide (y = 620 ∧ 300 ≤ x ∧ x ≤ 600)
  | 3 => decide (y = 620 ∧ 600 ≤ x ∧ x ≤ 900)
  | _ => false

/-- World._check_north_bound_traffic. -/
def check_north_bound_traffic (index : ℕ) (v : Vehicle) : Bool :=
  let x := v.position.1
  let y := v.position.2
  match index with
  | 0 => decide (x = 320 ∧ 0 ≤ y ∧ y ≤ 300)
  | 1 => decide (x = 620 ∧ 0 ≤ y ∧ y ≤ 300)
  | 2 => decide (x = 320 ∧ 300 ≤ y ∧ y ≤ 600)
  | 3 => decide (x = 620 ∧ 300 ≤ y ∧ y ≤ 600)
  | _ => false

/-- World._check_south_bound_traffic. -/
def check_south_bound_traffic (index : ℕ) (v : Vehicle) : Bool :=
  let x := v.position.1
  let y := v.position.2
  match index with
  | 0 => decide (x = 280 ∧ 300 ≤ y ∧ y ≤ 600)
  | 1 => decide (x = 580 ∧ 300 ≤ y ∧ y ≤ 600)
  | 2 => decide (x = 280 ∧ 600 ≤ y ∧ y ≤ 900)
  | 3 => decide (x = 580 ∧ 600 ≤ y ∧ y ≤ 900)
  | _ => false

/-- The traffic_conditions dictionary of check_for_traffic, keyed by the
exact (unconverted) direction tuple of the vehicle. -/
def trafficConditions (d : ℚ × ℚ) : Option (ℕ → Vehicle → Bool) :=
  if d = (1, 0) then some check_east_bound_traffic
  else if d = (-1, 0) then some check_west_bound_traffic
  else if d = (0, 1) then some check_north_bound_traffic
  else if d = (0, -1) then some check_south_bound_traffic
  else none

/-- The per-index classification condition: false when the direction tuple
has no entry in traffic_conditions (in which case check_for_traffic does
nothing), otherwise the condition function of that direction. -/
def approachCond (v : Vehicle) (index : ℕ) : Bool :=
  match trafficConditions v.direction with
  | some fn => fn index v
  | none => false

/-- World.check_for_traffic for one light index over the whole light
list: when the direction has a condition function and it holds, the light
at this index gains the vehicle and the vehicle caches its (squared)
distance to that light; on an unknown direction nothing happens. -/
def check_for_traffic (lights : List TrafficLight) (index : ℕ) (v : Vehicle) :
    Except String (List TrafficLight × Vehicle) :=
  match trafficConditions v.direction with
  | none => .ok (lights, v)
  | some fn =>
    if fn index v then
      match lights[index]? with
      | none => .ok (lights, v)
      | some l => do
        let l2 ← l.add_approaching_vehicle v
        .ok (lights.set index l2,
             v.update_light_distance (norm2 (psub v.position l.position)))
    else .ok (lights, v)

/-- Inner loop of World.add_traffic_data for one vehicle: run
check_for_traffic for every light index in order. -/
def check_all_lights (lights : List TrafficLight) (v : Vehicle) :
    Except String (List TrafficLight × Vehicle) :=
  (List.range lights.length).foldlM
    (fun acc i => check_for_traffic acc.1 i acc.2) (lights, v)

/-- World.add_traffic_data: classify every vehicle against every light,
threading the light list and collecting the (distance-updated) vehicles
in their original order. -/
def add_traffic_data (lights : List TrafficLight) (vehicles : List Vehicle) :
    Except String (List TrafficLight × List Vehicle) :=
  vehicles.foldlM
    (fun acc v => do
      let (ls, v2) ← check_all_lights acc.1 v
      .ok (ls, acc.2 ++ [v2]))
    (lights, ([] : List Vehicle))

/-- The stop condition of World._stop_due_to_light for one light: the
vehicle is in the flat approach list, within 40 units (squared: 1600),
and the state blocks it (YELLOW always; RED for horizontal motion; GREEN
for vertical motion). -/
def lightStopCond (l : TrafficLight) (v : Vehicle) : Bool :=
  decide (v ∈ l.get_approaching_vehicles) &&
  decide (norm2 (psub l.position v.position) ≤ 1600) &&
  (decide (l.state = .YELLOW) ||
   (decide (|v.direction.2| < |v.direction.1|) && decide (l.state = .RED)) ||
   (decide (|v.direction.1| < |v.direction.2|) && decide (l.state = .GREEN)))

/-- World._stop_due_to_light: the loop with continue/return translated to
an existential scan over the lights. -/
def stop_due_to_light (lights : List TrafficLight) (v : Vehicle) : Bool :=
  lights.any (fun l => lightStopCond l v)

/-- The per-pair condition of World._stop_due_to_vehicle_ahead: equal
direction arrays, same lane (cross-axis alignment within 1 unit), the
other strictly ahead (positive dot product), and separation below 13
units (squared: 169). -/
def vehicleAheadCond (v o : Vehicle) : Bool :=
  decide (v.direction = o.direction) &&
  (if 0 < |v.direction.1| then decide (|v.position.2 - o.position.2| < 1)
   else decide (|v.position.1 - o.position.1| < 1)) &&
  decide (0 < pdot (psub o.position v.position) v.direction) &&
  decide (norm2 (psub o.position v.position) < 169)

/-- World._stop_due_to_vehicle_ahead for the vehicle at index i of the
vehicle list; the Python identity test (other is vehicle) becomes an
index inequality. -/
def stop_due_to_vehicle_ahead (vehicles : List Vehicle) (i : ℕ) (v : Vehicle) :
    Bool :=
  (List.range vehicles.length).any (fun j =>
    decide (j ≠ i) &&
    (match vehicles[j]? with
     | some o => vehicleAheadCond v o
     | none => false))

/-- World.should_stop for the vehicle at index i of the vehicle list:
stop due to a light or due to a vehicle ahead. -/
def should_stop (lights : List TrafficLight) (vehicles : List Vehicle)
    (i : ℕ) : Bool :=
  match vehicles[i]? with
  | some v => stop_due_to_light lights v || stop_due_to_vehicle_ahead vehicles i v
  | none => false

end World

/-- World of world.py; the config dictionary is flattened to the window
width and height it supplies, and the controller is the fixed-cycle
strategy (the configured default; the MARL strategy is modelled by the
MARLTrafficLightController namespace). -/
structure World where
  width : ℚ
  height : ℚ
  vehicles : List Vehicle
  total_vehicles_passed : ℕ
  traffic_lights : List TrafficLight
  controller : FixedCycleTrafficLightController
deriving DecidableEq, Repr

namespace World

/-- World.is_within_bounds: compare the coordinate along the axis of
travel against the window bound in the direction of travel. -/
def is_within_bounds (w : World) (v : Vehicle) : Bool :=
  let x := v.position.1
  let y := v.position.2
  if |v.direction.2| < |v.direction.1| then
    (if 0 < v.direction.1 then decide (x < w.width) else decide (0 < x))
  else
    (if 0 < v.direction.2 then decide (y < w.height) else decide (0 < y))

/-- The final loop of World.update_traffic_data: vehicles are moved in
list order, each with speed 0 if it must stop and 100 otherwise, and the
in-place mutation means later vehicles see the already-updated positions
of earlier ones. -/
def move_vehicles (lights : List TrafficLight) (vehicles : List Vehicle)
    (dt : ℚ) : List Vehicle :=
  (List.range vehicles.length).foldl
    (fun vs i =>
      match vs[i]? with
      | none => vs
      | some v =>
        let speed : ℚ := if should_stop lights vs i then 0 else 100
        vs.set i (v.update speed dt))
    vehicles

/-- World.update_traffic_data: clear approach data, reclassify, advance
the controller and push its state to every light, cull vehicles that left
the bounds (before any movement), add the culled count to the passed
counter, then move the remaining vehicles. -/
def update_traffic_data (w : World) (dt : ℚ) : Except String World := do
  let lights0 := w.traffic_lights.map TrafficLight.clear_approaching_vehicles
  let (lights1, vehicles1) ← add_traffic_data lights0 w.vehicles
  let c2 := w.controller.update dt
  let lights2 := lights1.map (fun l => l.update c2.state)
  let kept := vehicles1.filter (fun v => is_within_bounds w v)
  let passed := w.total_vehicles_passed + (vehicles1.length - kept.length)
  .ok { w with
        vehicles := move_vehicles lights2 kept dt
        total_vehicles_passed := passed
        traffic_lights := lights2
        controller := c2 }

/-- The attribute names that World.__init__ assigns on self (world.py
lines 12 to 26). -/
def initAttrs : List String :=
  ["config", "vehicles", "total_vehicles_passed", "traffic_lights",
   "traffic_light_controller"]

/-- The attribute names that World.update_traffic_data reassigns on self
per tick (world.py lines 47 to 67). -/
def updateMutatedAttrs : List String :=
  ["vehicles", "total_vehicles_passed"]

end World

/-- The World attributes read by run_simulation of main.py after the loop
(lines 115 and 116) to emit the final metrics record. -/
def mainFinalReads : List String :=
  ["total_vehicles_passed", "total_wait_time"]

/-- The World attributes read by Renderer.draw_stats of renderer.py
(lines 44 and 45) on every rendered frame. -/
def rendererStatsReads : List String :=
  ["total_vehicles_passed", "total_wait_time"]

/- Concrete inputs used by witnesses and counterexamples. -/

/-- Concrete eastbound vehicle 20 units west and 20 units south of a
light position (300, 300): squared distance 800, within the 40-unit
radius. -/
def C1v : Vehicle := { position := (280, 280), direction := (1, 0) }

/-- Concrete YELLOW light listing C1v as approaching from the east. -/
def C1yellowLight : TrafficLight :=
  { position := (300, 300), light_id := "Ly", state := .YELLOW,
    approachE := [C1v] }

/-- Concrete RED light listing C1v as approaching from the east. -/
def C1redLight : TrafficLight :=
  { position := (300, 300), light_id := "Lr", state := .RED,
    approachE := [C1v] }

/-- Concrete GREEN light listing C1v as approaching from the east. -/
def C1greenLight : TrafficLight :=
  { position := (300, 300), light_id := "Lg", state := .GREEN,
    approachE := [C1v] }

/-- Concrete trailing eastbound vehicle. -/
def C4trail : Vehicle := { position := (0, 280), direction := (1, 0) }

/-- Concrete leading eastbound vehicle 10 units ahead of C4trail in the
same lane. -/
def C4lead : Vehicle := { position := (10, 280), direction := (1, 0) }

/-- Concrete world for the boundary-culling scenario: no lights, a
single eastbound vehicle at x = width - 1 with width = 900. -/
def C5world : World :=
  { width := 900, height := 900,
    vehicles := [{ position := (899, 100), direction := (1, 0) }],
    total_vehicles_passed := 0, traffic_lights := [],
    controller := .init 5 2 5 }

/-- Four concrete lights mirroring the intersection grid of the default
configuration. -/
def C6lights : List TrafficLight :=
  [{ position := (300, 300), light_id := "L300-300" },
   { position := (600, 300), light_id := "L600-300" },
   { position := (300, 600), light_id := "L300-600" },
   { position := (600, 600), light_id := "L600-600" }]

/-- Concrete eastbound vehicle at the shared segment boundary x = 300 of
the eastbound approach bands of light 0 and light 1. -/
def C6v : Vehicle := { position := (300, 280), direction := (1, 0) }

/-- Four concrete lights for the invalid-direction scenario. -/
def C8lights : List TrafficLight :=
  [{ position := (300, 300), light_id := "L300-300" },
   { position := (600, 300), light_id := "L600-300" },
   { position := (300, 600), light_id := "L300-600" },
   { position := (600, 600), light_id := "L600-600" }]

/-- Concrete vehicle with the diagonal direction (1, 1), outside the four
permitted unit vectors. -/
def C8v : Vehicle := { position := (300, 280), direction := (1, 1) }

/-- Concrete single light with empty approach lists. -/
def C10lights : List TrafficLight :=
  [{ position := (300, 300), light_id := "L300-300" }]

/-- The twenty-entry all-zero feature vector of a light with empty
approach lists. -/
def zeroFeatures : List ℚ :=
  [0, 0, 0, 0, 0, 0, 0, 0, 0, 0, 0, 0, 0, 0, 0, 0, 0, 0, 0, 0]

/-- The transition stored for C10lights under the single action 1: all
twenty features are zero both before and after the action. -/
def C10transition : MARLTrafficLightController.Transition :=
  { state := zeroFeatures, action := 1, reward := 0,
    next_state := zeroFeatures, done := false }

/- Theorems. -/

/-- C7: a configured controllerType string outside the recognized
enumeration (fixed, marl, case-insensitive) makes strategy selection fail
with a ValueError naming the unknown (lowered) type, never a silent
default; a recognized name selects the corresponding strategy. -/
theorem C7_strategy_selection_closed :
    ∀ s : String,
      (toLowerStr s = "fixed" → select_strategy s = .ok .fixed) ∧
      (toLowerStr s = "marl" → select_strategy s = .ok .marl) ∧
      (toLowerStr s ≠ "fixed" → toLowerStr s ≠ "marl" →
        select_strategy s =
          .error ("Unknown traffic light controller type: \x27" ++
            toLowerStr s ++ "\x27")) := by
  intro s
  refine ⟨fun h => ?_, fun h => ?_, fun h1 h2 => ?_⟩
  · simp [select_strategy, h]
  · simp [select_strategy, h]
  · simp [select_strategy, h1, h2]

/-- C7 witness: the unrecognized name Adaptive fails with the descriptive
error, and the recognized names FIXED and marl select their strategies. -/
theorem C7_strategy_selection_closed_witness :
    select_strategy "Adaptive" =
      .error ("Unknown traffic light controller type: \x27" ++
        toLowerStr "Adaptive" ++ "\x27") ∧
    select_strategy "FIXED" = .ok .fixed ∧
    select_strategy "marl" = .ok .marl :=
  ⟨(C7_strategy_selection_closed "Adaptive").2.2 (by decide) (by decide),
   (C7_strategy_selection_closed "FIXED").1 (by decide),
   (C7_strategy_selection_closed "marl").2.1 (by decide)⟩

/-- C9: the claim expects World to own both running counters, and both to
be readable at the end of a run.  The code defines and mutates only
total_vehicles_passed; total_wait_time is read by the final metrics
emission of main.py (and by every rendered frame of renderer.py) but is
never an attribute of World, so those reads raise AttributeError. -/
theorem C9_wait_time_counter_missing :
    "total_vehicles_passed" ∈ World.initAttrs ∧
    "total_vehicles_passed" ∈ World.updateMutatedAttrs ∧
    "total_wait_time" ∈ mainFinalReads ∧
    "total_wait_time" ∈ rendererStatsReads ∧
    "total_wait_time" ∉ World.initAttrs ∧
    "total_wait_time" ∉ World.updateMutatedAttrs := by
  decide

namespace MARLTrafficLightController

/-- Per-light feature extraction ignores the display state, which is the
only field the joint action application changes. -/
theorem buildLightFeatures_update (l : TrafficLight) (s : LightState) :
    buildLightFeatures (l.update s) = buildLightFeatures l := rfl

/-- The global observation vector is invariant under applying any list of
light-state actions. -/
theorem build_global_state_applyActions
    (lights : List TrafficLight) (actions : List (Fin 3)) :
    build_global_state (applyActions lights actions) =
      build_global_state lights := by
  induction lights generalizing actions with
  | nil => cases actions <;> rfl
  | cons l ls ih =>
    cases actions with
    | nil => simp [applyActions]
    | cons a as =>
      simp only [applyActions, List.zipWith_cons_cons, List.length_cons,
        List.drop_succ_cons, List.cons_append, build_global_state,
        List.flatMap_cons]
      rw [buildLightFeatures_update]
      have := ih as
      simp only [applyActions, build_global_state] at this
      rw [this]

/-- Every element of a pointwise image of two lists satisfies any
property satisfied by all images. -/
theorem forall_mem_zipWith {α β γ : Type} {f : α → β → γ} {P : γ → Prop}
    (h : ∀ a b, P (f a b)) :
    ∀ (L : List α) (A : List β) (c : γ), c ∈ List.zipWith f L A → P c := by
  intro L
  induction L with
  | nil => intro A c hc; simp at hc
  | cons x xs ih =>
    intro A c hc
    cases A with
    | nil => simp at hc
    | cons y ys =>
      rw [List.zipWith_cons_cons, List.mem_cons] at hc
      rcases hc with hc | hc
      · rw [hc]; exact h x y
      · exact ih ys c hc

end MARLTrafficLightController

/-- C10: every transition stored by a MARL update has next_state equal to
state, because the observation builder reads only light positions and
approach lists, which applying the light-state actions does not touch. -/
theorem C10_stored_transitions_stationary :
    ∀ (lights : List TrafficLight) (actions : List (Fin 3))
      (t : MARLTrafficLightController.Transition),
      t ∈ MARLTrafficLightController.storedTransitions lights actions →
      t.next_state = t.state := by
  intro lights actions t ht
  simp only [MARLTrafficLightController.storedTransitions] at ht
  have hP := MARLTrafficLightController.forall_mem_zipWith
    (P := fun tr : MARLTrafficLightController.Transition =>
      tr.state =
        MARLTrafficLightController.build_global_state lights ∧
      tr.next_state =
        MARLTrafficLightController.build_global_state
          (MARLTrafficLightController.applyActions lights actions))
    (fun l a => ⟨rfl, rfl⟩) _ _ t ht
  rw [hP.1, hP.2,
    MARLTrafficLightController.build_global_state_applyActions]

/-- Evaluation of the stored transitions for the concrete one-light
world under the single action 1. -/
theorem storedTransitions_C10lights_eval :
    MARLTrafficLightController.storedTransitions C10lights [1] =
      [C10transition] := by
  norm_num [MARLTrafficLightController.storedTransitions,
    MARLTrafficLightController.applyActions,
    MARLTrafficLightController.build_global_state,
    MARLTrafficLightController.buildLightFeatures,
    MARLTrafficLightController.calculate_reward,
    MARLTrafficLightController.listLightState,
    TrafficLight.approaching, TrafficLight.update, C10lights,
    C10transition, zeroFeatures]

/-- C10 witness: the single transition stored for a one-light world under
action 1 has equal state and next_state. -/
theorem C10_stored_transitions_stationary_witness :
    C10transition ∈
      MARLTrafficLightController.storedTransitions C10lights [1] ∧
    C10transition.next_state = C10transition.state :=
  ⟨storedTransitions_C10lights_eval ▸ List.mem_singleton.mpr rfl,
   C10_stored_transitions_stationary C10lights [1] C10transition
     (storedTransitions_C10lights_eval ▸ List.mem_singleton.mpr rfl)⟩

namespace MARLTrafficLightController

/-- In a list sorted by a reflexive relation, the first element found by
a predicate is related to every element of the list satisfying the
predicate. -/
theorem find_first_of_sorted {α : Type} {r : α → α → Prop} {p : α → Bool}
    (hrefl : ∀ x, r x x) :
    ∀ (l : List α), l.Sorted r → ∀ {a : α}, l.find? p = some a →
      ∀ b ∈ l, p b = true → r a b := by
  intro l
  induction l with
  | nil => intro _ a ha; simp at ha
  | cons x xs ih =>
    intro hsort a ha b hb hpb
    rw [List.sorted_cons] at hsort
    by_cases hpx : p x = true
    · rw [List.find?_cons_of_pos _ hpx] at ha
      injection ha with ha
      subst ha
      rcases List.mem_cons.mp hb with hb | hb
      · rw [hb]; exact hrefl x
      · exact hsort.1 b hb
    · rw [List.find?_cons_of_neg _ hpx] at ha
      rcases List.mem_cons.mp hb with hb | hb
      · rw [hb] at hpb; exact absurd hpb hpx
      · exact ih hsort.2 ha b hb hpb

/-- Every action occurs in the descending argsort. -/
theorem mem_argsortDesc (q : Fin 3 → ℚ) (b : Fin 3) : b ∈ argsortDesc q :=
  (List.perm_insertionSort (qge q) [0, 1, 2]).mem_iff.mpr (by fin_cases b <;> simp)

/-- The descending argsort is sorted by non-increasing Q-value. -/
theorem sorted_argsortDesc (q : Fin 3 → ℚ) :
    (argsortDesc q).Sorted (qge q) :=
  List.sorted_insertionSort (qge q) [0, 1, 2]

/-- force_action_change always yields an action, that action differs from
the previous one, and it carries the maximal Q-value among all actions
different from the previous one. -/
theorem force_action_change_spec (q : Fin 3 → ℚ) (prev : Fin 3) :
    ∃ a, force_action_change q prev = some a ∧ a ≠ prev ∧
      ∀ b : Fin 3, b ≠ prev → q b ≤ q a := by
  have hex : ∃ x ∈ argsortDesc q, (fun a => decide (a ≠ prev)) x = true := by
    have hb : ∃ b : Fin 3, b ≠ prev := by
      fin_cases prev
      · exact ⟨1, by decide⟩
      · exact ⟨0, by decide⟩
      · exact ⟨0, by decide⟩
    obtain ⟨b, hbne⟩ := hb
    exact ⟨b, mem_argsortDesc q b, by simpa using hbne⟩
  obtain ⟨a, ha⟩ := Option.isSome_iff_exists.mp
    (List.find?_isSome.mpr hex)
  refine ⟨a, ha, by simpa using List.find?_some ha, fun b hbne => ?_⟩
  exact find_first_of_sorted (fun x => le_refl (q x)) (argsortDesc q)
    (sorted_argsortDesc q) ha b (mem_argsortDesc q b) (by simpa using hbne)

end MARLTrafficLightController

/-- C3: for every MARL agent selection, a realized action that differs
from the previous action can only happen once the (dt-incremented)
time_in_state has reached min_dur, and once it has reached max_dur the
realized action is forced to differ from the previous action and to be
the highest-valued action among those differing from it; an action change
below min_dur never occurs. -/
theorem C3_marl_dwell_constraint :
    (∀ (proposed prev : Fin 3) (t : ℚ) (q : Fin 3 → ℚ) (a : Fin 3),
        MARLTrafficLightController.select_traffic_light_action
          proposed prev t q = some a →
        a ≠ prev → MARLTrafficLightController.min_dur ≤ t) ∧
    (∀ (proposed prev : Fin 3) (t : ℚ) (q : Fin 3 → ℚ),
        MARLTrafficLightController.max_dur ≤ t →
        ∃ a, MARLTrafficLightController.select_traffic_light_action
            proposed prev t q = some a ∧
          a ≠ prev ∧ ∀ b : Fin 3, b ≠ prev → q b ≤ q a) := by
  constructor
  · intro proposed prev t q a hsel hne
    by_contra hlt
    rw [not_le] at hlt
    rw [MARLTrafficLightController.select_traffic_light_action,
      if_pos hlt] at hsel
    injection hsel with hsel
    exact hne hsel.symm
  · intro proposed prev t q hmax
    have hnotlt : ¬(t < MARLTrafficLightController.min_dur) := by
      rw [not_lt]
      calc MARLTrafficLightController.min_dur
          ≤ MARLTrafficLightController.max_dur := by norm_num
            [MARLTrafficLightController.min_dur,
             MARLTrafficLightController.max_dur]
        _ ≤ t := hmax
    obtain ⟨a, ha, hne, hmaxval⟩ :=
      MARLTrafficLightController.force_action_change_spec q prev
    refine ⟨a, ?_, hne, hmaxval⟩
    rw [MARLTrafficLightController.select_traffic_light_action,
      if_neg hnotlt, if_pos hmax]
    exact ha

/-- C3 witness: with Q-values (3, 1, 2), previous action 0 and the
selection succeeding at time 5, a change implies the minimum dwell has
elapsed; at time 10 the forced change picks action 2, the best action
other than 0. -/
theorem C3_marl_dwell_constraint_witness :
    MARLTrafficLightController.min_dur ≤ (5 : ℚ) ∧
    (∃ a, MARLTrafficLightController.select_traffic_light_action
        1 0 10 ![3, 1, 2] = some a ∧
      a ≠ 0 ∧ ∀ b : Fin 3, b ≠ 0 → (![3, 1, 2] : Fin 3 → ℚ) b ≤ ![3, 1, 2] a) :=
  ⟨C3_marl_dwell_constraint.1 1 0 5 ![3, 1, 2] 1
     (by norm_num [MARLTrafficLightController.select_traffic_light_action,
        MARLTrafficLightController.min_dur,
        MARLTrafficLightController.max_dur])
     (by decide),
   C3_marl_dwell_constraint.2 1 0 10 ![3, 1, 2]
     (by norm_num [MARLTrafficLightController.max_dur])⟩

/-- C1: a vehicle listed as approaching a light and within 40 units of it
(squared distance at most 1600) is stopped by a YELLOW light, by a RED
light when its motion is horizontal, and by a GREEN light when its motion
is vertical; and the light rule alone never stops a horizontal vehicle
when every light is GREEN, nor a vertical vehicle when every light is
RED. -/
theorem C1_light_rule :
    (∀ (lights : List TrafficLight) (vehicles : List Vehicle) (i : ℕ)
        (v : Vehicle) (l : TrafficLight),
        vehicles[i]? = some v → l ∈ lights →
        v ∈ l.get_approaching_vehicles →
        norm2 (psub l.position v.position) ≤ 1600 →
        ((l.state = .YELLOW → World.should_stop lights vehicles i = true) ∧
         (|v.direction.2| < |v.direction.1| → l.state = .RED →
           World.should_stop lights vehicles i = true) ∧
         (|v.direction.1| < |v.direction.2| → l.state = .GREEN →
           World.should_stop lights vehicles i = true))) ∧
    (∀ (lights : List TrafficLight) (v : Vehicle),
        |v.direction.2| < |v.direction.1| →
        (∀ l ∈ lights, l.state = .GREEN) →
        World.stop_due_to_light lights v = false) ∧
    (∀ (lights : List TrafficLight) (v : Vehicle),
        |v.direction.1| < |v.direction.2| →
        (∀ l ∈ lights, l.state = .RED) →
        World.stop_due_to_light lights v = false) := by
  refine ⟨?_, ?_, ?_⟩
  · intro lights vehicles i v l hi hl hmem hdist
    have hstop : World.stop_due_to_light lights v = true →
        World.should_stop lights vehicles i = true := by
      intro h
      simp [World.should_stop, hi, h]
    refine ⟨fun hy => ?_, fun hdir hr => ?_, fun hdir hg => ?_⟩ <;>
      refine hstop (List.any_eq_true.mpr ⟨l, hl, ?_⟩)
    · simp [World.lightStopCond, hmem, hdist, hy]
    · simp [World.lightStopCond, hmem, hdist, hdir, hr]
    · simp [World.lightStopCond, hmem, hdist, hdir, hg]
  · intro lights v hdir hall
    refine List.any_eq_false.mpr ?_
    intro l hl
    have hs := hall l hl
    simp [World.lightStopCond, hs]
    intro _ _
    exact hdir.le
  · intro lights v hdir hall
    refine List.any_eq_false.mpr ?_
    intro l hl
    have hs := hall l hl
    simp [World.lightStopCond, hs]
    intro _ _
    exact hdir.le

/-- C1 witness: the concrete eastbound vehicle 800 squared-units from the
light stops at YELLOW and at RED, and the light rule does not stop it at
GREEN. -/
theorem C1_light_rule_witness :
    World.should_stop [C1yellowLight] [C1v] 0 = true ∧
    World.should_stop [C1redLight] [C1v] 0 = true ∧
    World.stop_due_to_light [C1greenLight] C1v = false :=
  ⟨(C1_light_rule.1 [C1yellowLight] [C1v] 0 C1v C1yellowLight rfl
      (List.mem_singleton.mpr rfl) (by decide)
      (by norm_num [norm2, psub, C1yellowLight, C1v])).1 rfl,
   (C1_light_rule.1 [C1redLight] [C1v] 0 C1v C1redLight rfl
      (List.mem_singleton.mpr rfl) (by decide)
      (by norm_num [norm2, psub, C1redLight, C1v])).2.1
     (by norm_num [C1v]) rfl,
   C1_light_rule.2.1 [C1greenLight] C1v (by norm_num [C1v])
     (fun l hl => by rw [List.mem_singleton.mp hl]; rfl)⟩

/-- C4: when another vehicle at a different list index shares the
direction and lane of the vehicle at index i, lies strictly ahead of it
and within 13 units (squared distance below 169), the stop decision of
the vehicle at index i is true, whatever the lights say. -/
theorem C4_car_following :
    ∀ (lights : List TrafficLight) (vehicles : List Vehicle) (i j : ℕ)
      (v o : Vehicle),
      vehicles[i]? = some v → vehicles[j]? = some o → j ≠ i →
      v.direction = o.direction →
      (if 0 < |v.direction.1| then |v.position.2 - o.position.2| < 1
        else |v.position.1 - o.position.1| < 1) →
      0 < pdot (psub o.position v.position) v.direction →
      norm2 (psub o.position v.position) < 169 →
      World.should_stop lights vehicles i = true := by
  intro lights vehicles i j v o hi hj hne hdir hlane hdot hnorm
  have hcond : World.vehicleAheadCond v o = true := by
    rw [World.vehicleAheadCond]
    have h1 : decide (v.direction = o.direction) = true := decide_eq_true hdir
    have h3 : decide (0 < pdot (psub o.position v.position) v.direction) =
        true := decide_eq_true hdot
    have h4 : decide (norm2 (psub o.position v.position) < 169) = true :=
      decide_eq_true hnorm
    have h2 : (if 0 < |v.direction.1| then
          decide (|v.position.2 - o.position.2| < 1)
        else decide (|v.position.1 - o.position.1| < 1)) = true := by
      by_cases hp : 0 < |v.direction.1|
      · rw [if_pos hp] at hlane ⊢
        exact decide_eq_true hlane
      · rw [if_neg hp] at hlane ⊢
        exact decide_eq_true hlane
    rw [h1, h2, h3, h4]
    rfl
  have hahead : World.stop_due_to_vehicle_ahead vehicles i v = true := by
    rw [World.stop_due_to_vehicle_ahead, List.any_eq_true]
    have hlt : j < vehicles.length := by
      by_contra hge
      rw [not_lt] at hge
      rw [List.getElem?_eq_none hge] at hj
      exact Option.noConfusion hj
    refine ⟨j, List.mem_range.mpr hlt, ?_⟩
    rw [hj]
    simp [hne, hcond]
  simp only [World.should_stop]
  rw [hi]
  simp [hahead]

/-- C4 witness: the trailing vehicle 10 units behind a leader in the same
eastbound lane must stop even with no lights at all. -/
theorem C4_car_following_witness :
    World.should_stop [] [C4trail, C4lead] 0 = true :=
  C4_car_following [] [C4trail, C4lead] 0 1 C4trail C4lead rfl rfl
    (by decide) rfl
    (by norm_num [C4trail, C4lead])
    (by norm_num [pdot, psub, C4trail, C4lead])
    (by norm_num [norm2, psub, C4trail, C4lead])

namespace FixedCycleTrafficLightController

/-- A controller whose timer has reached the duration of its current
state performs exactly the transition of the table. -/
theorem handle_at_threshold (c : FixedCycleTrafficLightController)
    (h : fcDuration c ≤ c.time_in_state) :
    handle_state_transition c = c.switch_state (fcNextState c) := by
  obtain ⟨st, prev, t, g, y, r⟩ := c
  cases st <;>
    simp_all [handle_state_transition, fcDuration, fcNextState, switch_state]

/-- A controller whose timer is still below the duration of its current
state does not transition. -/
theorem handle_below_threshold (c : FixedCycleTrafficLightController)
    (h : c.time_in_state < fcDuration c) :
    handle_state_transition c = c := by
  obtain ⟨st, prev, t, g, y, r⟩ := c
  cases st <;>
    simp_all [handle_state_transition, fcDuration, not_le_of_lt h]

/-- Running m updates of size dt from a state whose timer is m steps
short of its duration lands exactly on the transition of the table, with
the timer reset. -/
theorem run_phase (dt : ℚ) (hdt : 0 < dt) :
    ∀ (m : ℕ), 1 ≤ m → ∀ (c : FixedCycleTrafficLightController),
      c.time_in_state = fcDuration c - m * dt →
      (fun s => update s dt)^[m] c = c.switch_state (fcNextState c) := by
  intro m hm
  induction m, hm using Nat.le_induction with
  | base =>
    intro c hc
    rw [Function.iterate_one]
    rw [update]
    have ht : c.time_in_state + dt = fcDuration c := by
      rw [hc]; push_cast; ring
    rw [ht]
    exact handle_at_threshold _ (le_refl (fcDuration c))
  | succ n hn ih =>
    intro c hc
    rw [Function.iterate_succ_apply]
    have hstep : update c dt =
        { c with time_in_state := fcDuration c - n * dt } := by
      rw [update]
      have ht : c.time_in_state + dt = fcDuration c - n * dt := by
        rw [hc]; push_cast; ring
      rw [ht]
      apply handle_below_threshold
      show fcDuration c - n * dt < fcDuration c
      have hn0 : (1 : ℚ) ≤ (n : ℚ) := by exact_mod_cast hn
      nlinarith
    rw [hstep]
    exact ih { c with time_in_state := fcDuration c - n * dt } rfl

end FixedCycleTrafficLightController

/-- C2: the fixed-cycle controller transitions GREEN to YELLOW once the
green duration has elapsed, YELLOW to RED or GREEN depending on the
previous state once the yellow duration has elapsed, RED to YELLOW once
the red duration has elapsed; and, started in GREEN with previous state
RED, timer 0 and positive durations g = a dt, y = b dt, r = k dt, after
the a + b + k + b updates that simulate exactly g + y + r + y seconds it
is again in GREEN with the timer reset to 0. -/
theorem C2_fixed_cycle_table_and_period :
    (∀ c : FixedCycleTrafficLightController,
        c.state = .GREEN → c.green_duration ≤ c.time_in_state →
        c.handle_state_transition = c.switch_state .YELLOW) ∧
    (∀ c : FixedCycleTrafficLightController,
        c.state = .YELLOW → c.yellow_duration ≤ c.time_in_state →
        c.handle_state_transition = c.switch_state
          (if c.previous_state = .GREEN then .RED else .GREEN)) ∧
    (∀ c : FixedCycleTrafficLightController,
        c.state = .RED → c.red_duration ≤ c.time_in_state →
        c.handle_state_transition = c.switch_state .YELLOW) ∧
    (∀ (g y r dt : ℚ) (a b k : ℕ), 0 < dt → 1 ≤ a → 1 ≤ b → 1 ≤ k →
        g = a * dt → y = b * dt → r = k * dt →
        ((fun s => FixedCycleTrafficLightController.update s dt)^[a + b + k + b]
            (FixedCycleTrafficLightController.init g y r)).state = .GREEN ∧
        ((fun s => FixedCycleTrafficLightController.update s dt)^[a + b + k + b]
            (FixedCycleTrafficLightController.init g y r)).time_in_state = 0) := by
  refine ⟨?_, ?_, ?_, ?_⟩
  · intro c h1 h2
    obtain ⟨st, prev, t, g, y, r⟩ := c
    simp only at h1
    subst h1
    exact FixedCycleTrafficLightController.handle_at_threshold _ h2
  · intro c h1 h2
    obtain ⟨st, prev, t, g, y, r⟩ := c
    simp only at h1
    subst h1
    exact FixedCycleTrafficLightController.handle_at_threshold _ h2
  · intro c h1 h2
    obtain ⟨st, prev, t, g, y, r⟩ := c
    simp only at h1
    subst h1
    exact FixedCycleTrafficLightController.handle_at_threshold _ h2
  · intro g y r dt a b k hdt ha hb hk hg hy hr
    have h1 : (fun s => FixedCycleTrafficLightController.update s dt)^[a]
        (FixedCycleTrafficLightController.init g y r) =
        (⟨.YELLOW, .GREEN, 0, g, y, r⟩ : FixedCycleTrafficLightController) :=
      FixedCycleTrafficLightController.run_phase dt hdt a ha _
        (show (0 : ℚ) = g - a * dt by rw [hg]; ring)
    have h2 : (fun s => FixedCycleTrafficLightController.update s dt)^[b]
        (⟨.YELLOW, .GREEN, 0, g, y, r⟩ : FixedCycleTrafficLightController) =
        (⟨.RED, .YELLOW, 0, g, y, r⟩ : FixedCycleTrafficLightController) :=
      FixedCycleTrafficLightController.run_phase dt hdt b hb _
        (show (0 : ℚ) = y - b * dt by rw [hy]; ring)
    have h3 : (fun s => FixedCycleTrafficLightController.update s dt)^[k]
        (⟨.RED, .YELLOW, 0, g, y, r⟩ : FixedCycleTrafficLightController) =
        (⟨.YELLOW, .RED, 0, g, y, r⟩ : FixedCycleTrafficLightController) :=
      FixedCycleTrafficLightController.run_phase dt hdt k hk _
        (show (0 : ℚ) = r - k * dt by rw [hr]; ring)
    have h4 : (fun s => FixedCycleTrafficLightController.update s dt)^[b]
        (⟨.YELLOW, .RED, 0, g, y, r⟩ : FixedCycleTrafficLightController) =
        (⟨.GREEN, .YELLOW, 0, g, y, r⟩ : FixedCycleTrafficLightController) :=
      FixedCycleTrafficLightController.run_phase dt hdt b hb _
        (show (0 : ℚ) = y - b * dt by rw [hy]; ring)
    have hsplit : a + b + k + b = b + (k + (b + a)) := by omega
    have hfull : (fun s => FixedCycleTrafficLightController.update s dt)^[a + b + k + b]
        (FixedCycleTrafficLightController.init g y r) =
        (⟨.GREEN, .YELLOW, 0, g, y, r⟩ : FixedCycleTrafficLightController) := by
      rw [hsplit, Function.iterate_add_apply, Function.iterate_add_apply,
        Function.iterate_add_apply, h1, h2, h3, h4]
    exact ⟨by rw [hfull], by rw [hfull]⟩

/-- C2 witness: with durations 2, 1, 2 and dt = 1, after the six updates
covering 2 + 1 + 2 + 1 seconds the controller is back in GREEN with the
timer at 0. -/
theorem C2_fixed_cycle_table_and_period_witness :
    ((fun s => FixedCycleTrafficLightController.update s 1)^[2 + 1 + 2 + 1]
        (FixedCycleTrafficLightController.init 2 1 2)).state = .GREEN ∧
    ((fun s => FixedCycleTrafficLightController.update s 1)^[2 + 1 + 2 + 1]
        (FixedCycleTrafficLightController.init 2 1 2)).time_in_state = 0 :=
  C2_fixed_cycle_table_and_period.2.2.2 2 1 2 1 2 1 2
    (by norm_num) (by norm_num) (by norm_num) (by norm_num)
    (by norm_num) (by norm_num) (by norm_num)

/-- Reduction of an Except bind applied to a success value. -/
theorem except_ok_bind {ε α β : Type} (a : α) (f : α → Except ε β) :
    (Except.ok a : Except ε α) >>= f = f a := rfl

/-- Classification over an empty light list leaves a single vehicle
unchanged. -/
theorem add_traffic_data_no_lights (v : Vehicle) :
    World.add_traffic_data [] [v] = .ok ([], [v]) := rfl

/-- With no lights and a single vehicle, nothing stops it and one tick
moves it at speed 100. -/
theorem move_vehicles_single_free (v : Vehicle) (dt : ℚ) :
    World.move_vehicles [] [v] dt = [v.update 100 dt] := rfl

/-- C5 amended: a vehicle at x = width - 1 moving in +x with speed times
dt above 1 and nothing stopping it survives the update call that moves it
out of bounds with the counter unchanged, and is removed by the following
update call, which increments total_vehicles_passed by exactly 1. -/
theorem C5_boundary_cull_next_tick :
    ∀ (w : World) (v : Vehicle) (dt : ℚ),
      w.traffic_lights = [] → w.vehicles = [v] → v.direction = (1, 0) →
      v.position.1 = w.width - 1 → 1 < 100 * dt →
      ∃ w1, w.update_traffic_data dt = .ok w1 ∧ w1.vehicles.length = 1 ∧
        w1.total_vehicles_passed = w.total_vehicles_passed ∧
        ∃ w2, w1.update_traffic_data dt = .ok w2 ∧ w2.vehicles = [] ∧
          w2.total_vehicles_passed = w.total_vehicles_passed + 1 := by
  intro w v dt hl hv hdir hx hdt
  have hwb : w.is_within_bounds v = true := by
    simp only [World.is_within_bounds, hdir]
    norm_num
    rw [hx]
    linarith
  have hv1dir : (v.update 100 dt).direction = (1, 0) := hdir
  have hv1x : (v.update 100 dt).position.1 = w.width - 1 + 100 * dt := by
    show v.position.1 + v.direction.1 * 100 * dt = _
    rw [hx, hdir]
    norm_num
  have h1 : w.update_traffic_data dt = .ok { w with
      vehicles := [v.update 100 dt],
      total_vehicles_passed := w.total_vehicles_passed,
      traffic_lights := [],
      controller := w.controller.update dt } := by
    rw [World.update_traffic_data, hl, hv]
    simp only [List.map_nil, add_traffic_data_no_lights, except_ok_bind]
    simp [hwb, move_vehicles_single_free]
  have hwb2 : ({ w with
      vehicles := [v.update 100 dt],
      total_vehicles_passed := w.total_vehicles_passed,
      traffic_lights := [],
      controller := w.controller.update dt } : World).is_within_bounds
        (v.update 100 dt) = false := by
    simp only [World.is_within_bounds, hv1dir]
    norm_num
    rw [hv1x]
    linarith
  have h2 : ({ w with
      vehicles := [v.update 100 dt],
      total_vehicles_passed := w.total_vehicles_passed,
      traffic_lights := [],
      controller := w.controller.update dt } : World).update_traffic_data dt =
      .ok { w with
        vehicles := [],
        total_vehicles_passed := w.total_vehicles_passed + 1,
        traffic_lights := [],
        controller := (w.controller.update dt).update dt } := by
    rw [World.update_traffic_data]
    simp only [List.map_nil, add_traffic_data_no_lights, except_ok_bind]
    simp [hwb2]
    rfl
  exact ⟨_, h1, rfl, rfl, _, h2, rfl, rfl⟩

/-- C5 counterexample: on the concrete one-vehicle no-light world with
the vehicle at x = 899 = width - 1 and speed times dt = 2, a single
update call leaves the vehicle in the list and the counter at 0, not
(as the claim states) removing it and incrementing the counter. -/
theorem C5_boundary_cull_next_tick_counterexample :
    (World.update_traffic_data C5world (1 / 50)).toOption.map
        (fun w => (w.vehicles.length, w.total_vehicles_passed)) =
      some (1, 0) ∧
    (World.update_traffic_data C5world (1 / 50)).toOption.map
        (fun w => (w.vehicles.length, w.total_vehicles_passed)) ≠
      some (0, 1) := by
  constructor <;> decide

/-- C5 witness: the amended statement instantiated on the concrete
world. -/
theorem C5_boundary_cull_next_tick_witness :
    ∃ w1, C5world.update_traffic_data (1 / 50) = .ok w1 ∧
      w1.vehicles.length = 1 ∧
      w1.total_vehicles_passed = C5world.total_vehicles_passed ∧
      ∃ w2, w1.update_traffic_data (1 / 50) = .ok w2 ∧ w2.vehicles = [] ∧
        w2.total_vehicles_passed = C5world.total_vehicles_passed + 1 :=
  C5_boundary_cull_next_tick C5world
    { position := (899, 100), direction := (1, 0) } (1 / 50)
    rfl rfl rfl (by norm_num [C5world]) (by norm_num)

/-- Two distinct eastbound approach segments only share a position at
x = 300. -/
theorem east_segments_overlap (v : Vehicle) (i j : ℕ) (hij : i ≠ j)
    (hi : World.check_east_bound_traffic i v = true)
    (hj : World.check_east_bound_traffic j v = true) : v.position.1 = 300 := by
  rcases i with _ | _ | _ | _ | i <;> rcases j with _ | _ | _ | _ | j <;>
    simp_all [World.check_east_bound_traffic] <;> linarith

/-- Two distinct westbound approach segments only share a position at
x = 600. -/
theorem west_segments_overlap (v : Vehicle) (i j : ℕ) (hij : i ≠ j)
    (hi : World.check_west_bound_traffic i v = true)
    (hj : World.check_west_bound_traffic j v = true) : v.position.1 = 600 := by
  rcases i with _ | _ | _ | _ | i <;> rcases j with _ | _ | _ | _ | j <;>
    simp_all [World.check_west_bound_traffic] <;> linarith

/-- Two distinct northbound approach segments only share a position at
y = 300. -/
theorem north_segments_overlap (v : Vehicle) (i j : ℕ) (hij : i ≠ j)
    (hi : World.check_north_bound_traffic i v = true)
    (hj : World.check_north_bound_traffic j v = true) : v.position.2 = 300 := by
  rcases i with _ | _ | _ | _ | i <;> rcases j with _ | _ | _ | _ | j <;>
    simp_all [World.check_north_bound_traffic] <;> linarith

/-- Two distinct southbound approach segments only share a position at
y = 600. -/
theorem south_segments_overlap (v : Vehicle) (i j : ℕ) (hij : i ≠ j)
    (hi : World.check_south_bound_traffic i v = true)
    (hj : World.check_south_bound_traffic j v = true) : v.position.2 = 600 := by
  rcases i with _ | _ | _ | _ | i <;> rcases j with _ | _ | _ | _ | j <;>
    simp_all [World.check_south_bound_traffic] <;> linarith

/-- C6 amended: a vehicle with a permitted direction is classified as
approaching two distinct lights in the same tick only when its position
lies exactly on the boundary shared by two adjacent approach segments
(eastbound x = 300, westbound x = 600, northbound y = 300, southbound
y = 600); otherwise at most one light gains it.  Within a light it always
lands in exactly one direction list: the one selected by dir_map, all
others unchanged. -/
theorem C6_single_intersection_classification :
    ∀ v : Vehicle,
      v.direction ∈ ([(1, 0), (-1, 0), (0, 1), (0, -1)] : List (ℚ × ℚ)) →
      (∀ i j : ℕ, World.approachCond v i = true →
        World.approachCond v j = true → i ≠ j →
        ((v.direction = (1, 0) ∧ v.position.1 = 300) ∨
         (v.direction = (-1, 0) ∧ v.position.1 = 600) ∨
         (v.direction = (0, 1) ∧ v.position.2 = 300) ∨
         (v.direction = (0, -1) ∧ v.position.2 = 600))) ∧
      (∃ d : Dir,
        (∀ l : TrafficLight,
          l.add_approaching_vehicle v = .ok (l.appendApproaching d v)) ∧
        (∀ (l : TrafficLight) (d2 : Dir), d2 ≠ d →
          (l.appendApproaching d v).approaching d2 = l.approaching d2)) := by
  intro v hdir
  simp only [List.mem_cons, List.not_mem_nil, or_false] at hdir
  have happend : ∀ d : Dir, ∀ (l : TrafficLight) (d2 : Dir), d2 ≠ d →
      (l.appendApproaching d v).approaching d2 = l.approaching d2 := by
    intro d l d2 hd2
    cases d <;> cases d2 <;>
      first
        | exact absurd rfl hd2
        | rfl
  rcases hdir with h | h | h | h
  · refine ⟨fun i j hi hj hij => ?_, ⟨.E, fun l => ?_, happend .E⟩⟩
    · simp only [World.approachCond, World.trafficConditions, h] at hi hj
      norm_num at hi hj
      exact Or.inl ⟨h, east_segments_overlap v i j hij hi hj⟩
    · rw [TrafficLight.add_approaching_vehicle, h]
      norm_num [ratTrunc, dirMap]
  · refine ⟨fun i j hi hj hij => ?_, ⟨.W, fun l => ?_, happend .W⟩⟩
    · simp only [World.approachCond, World.trafficConditions, h] at hi hj
      norm_num at hi hj
      exact Or.inr (Or.inl ⟨h, west_segments_overlap v i j hij hi hj⟩)
    · rw [TrafficLight.add_approaching_vehicle, h]
      norm_num [ratTrunc, dirMap, show ⌈(-1 : ℚ)⌉ = -1 from by decide]
  · refine ⟨fun i j hi hj hij => ?_, ⟨.N, fun l => ?_, happend .N⟩⟩
    · simp only [World.approachCond, World.trafficConditions, h] at hi hj
      norm_num at hi hj
      exact Or.inr (Or.inr (Or.inl ⟨h, north_segments_overlap v i j hij hi hj⟩))
    · rw [TrafficLight.add_approaching_vehicle, h]
      norm_num [ratTrunc, dirMap]
  · refine ⟨fun i j hi hj hij => ?_, ⟨.S, fun l => ?_, happend .S⟩⟩
    · simp only [World.approachCond, World.trafficConditions, h] at hi hj
      norm_num at hi hj
      exact Or.inr (Or.inr (Or.inr ⟨h, south_segments_overlap v i j hij hi hj⟩))
    · rw [TrafficLight.add_approaching_vehicle, h]
      norm_num [ratTrunc, dirMap, show ⌈(-1 : ℚ)⌉ = -1 from by decide]

/-- C6 counterexample: the eastbound vehicle at (300, 280) is added to
the approach sets of both light 0 and light 1 in a single
add_traffic_data pass over the four-light world, refuting the at most
one light claim. -/
theorem C6_single_intersection_classification_counterexample :
    (World.add_traffic_data C6lights [C6v]).toOption.map
        (fun p => p.1.map (fun l => l.get_approaching_vehicles.length)) =
      some [1, 1, 0, 0] := by
  norm_num [World.add_traffic_data, World.check_all_lights,
    World.check_for_traffic, World.trafficConditions,
    World.check_east_bound_traffic, TrafficLight.add_approaching_vehicle,
    TrafficLight.appendApproaching, TrafficLight.get_approaching_vehicles,
    Vehicle.update_light_distance, ratTrunc, dirMap, norm2, psub,
    C6lights, C6v, List.range_succ, except_ok_bind]
  exact ⟨_, ⟨_, rfl⟩, rfl⟩

/-- C6 witness: the amended statement instantiated at the boundary
vehicle, whose double classification indeed happens at x = 300, and whose
direction selects exactly the E list. -/
theorem C6_single_intersection_classification_witness :
    ((C6v.direction = (1, 0) ∧ C6v.position.1 = 300) ∨
     (C6v.direction = (-1, 0) ∧ C6v.position.1 = 600) ∨
     (C6v.direction = (0, 1) ∧ C6v.position.2 = 300) ∨
     (C6v.direction = (0, -1) ∧ C6v.position.2 = 600)) ∧
    (∃ d : Dir,
      (∀ l : TrafficLight,
        l.add_approaching_vehicle C6v = .ok (l.appendApproaching d C6v)) ∧
      (∀ (l : TrafficLight) (d2 : Dir), d2 ≠ d →
        (l.appendApproaching d C6v).approaching d2 = l.approaching d2)) :=
  ⟨(C6_single_intersection_classification C6v (by decide)).1 0 1
     (by decide) (by decide) (by decide),
   (C6_single_intersection_classification C6v (by decide)).2⟩

/-- C8 amended: during per-tick classification a vehicle whose direction
tuple has no entry in traffic_conditions is silently skipped, every light
and the vehicle itself left unchanged and no exception raised; the
ValueError for an invalid direction lives only in
TrafficLight.add_approaching_vehicle, which fires exactly when the
truncated direction tuple has no dir_map entry, a call the classification
path never makes. -/
theorem C8_invalid_direction_silently_skipped :
    (∀ (lights : List TrafficLight) (v : Vehicle),
        World.trafficConditions v.direction = none →
        World.check_all_lights lights v = .ok (lights, v)) ∧
    (∀ (l : TrafficLight) (v : Vehicle),
        dirMap (ratTrunc v.direction.1, ratTrunc v.direction.2) = none →
        l.add_approaching_vehicle v = .error ("Invalid vehicle direction")) := by
  constructor
  · intro lights v hcond
    have hcft : ∀ (ls : List TrafficLight) (i : ℕ),
        World.check_for_traffic ls i v = .ok (ls, v) := by
      intro ls i
      rw [World.check_for_traffic, hcond]
    rw [World.check_all_lights]
    generalize List.range lights.length = idxs
    induction idxs generalizing lights with
    | nil => rfl
    | cons i is ih =>
      rw [List.foldlM_cons, hcft lights i]
      exact ih lights
  · intro l v hmap
    rw [TrafficLight.add_approaching_vehicle, hmap]

/-- C8 counterexample: the diagonal vehicle with direction (1, 1) is
silently skipped by a full add_traffic_data pass over the four-light
world: no exception, no light gains it, the vehicle is unchanged. -/
theorem C8_invalid_direction_silently_skipped_counterexample :
    World.add_traffic_data C8lights [C8v] = .ok (C8lights, [C8v]) := rfl

/-- C8 witness: the amended statement instantiated at the diagonal
vehicle: the classification pass skips it, and a direct
add_approaching_vehicle call on it raises the ValueError. -/
theorem C8_invalid_direction_silently_skipped_witness :
    World.check_all_lights C8lights C8v = .ok (C8lights, C8v) ∧
    ∀ l : TrafficLight,
      l.add_approaching_vehicle C8v = .error ("Invalid vehicle direction") :=
  ⟨C8_invalid_direction_silently_skipped.1 C8lights C8v rfl,
   fun l => C8_invalid_direction_silently_skipped.2 l C8v (by decide)⟩

end OptiTraffic
